import Mathlib

/-!
# ESSAPS: the DPS5015 ModBus register map (code/essaps/DPS5015.h)

The header is twenty-nine lines of C preprocessor text: eight object-like
macros naming ModBus holding-register addresses, a comment above each one
documenting access direction and encoding, and a commented-out definition of
the flag NO_DPS.

The embedding has two layers, both transcribed from the header.

* The eight macros as natural-number constants, under their own names.
* The header itself as a list of lines (DPS5015_h), with a small model of what
  the preprocessor does with such a list: comment and blank lines are
  discarded, a define line binds its name.  The comment text is kept verbatim;
  it plays no part in preprocessing.

The comments also describe how the power supply encodes each register value
(hundredths of a volt or ampere, and so on).  That encoding is a property of
the device: the header holds no scale constant and no conversion macro, so it
has no counterpart in this development.
-/

namespace DPS5015

/-! ## The register address macros -/

/-- voltage set r/w, value is voltage*100 -/
def REG_V_SET : Nat := 0x0000

/-- current set r/w, value is current*100 -/
def REG_I_SET : Nat := 0x0001

/-- voltage read, r, value is voltage*100 -/
def REG_V_READ : Nat := 0x0002

/-- current read, r, value is current*100 -/
def REG_I_READ : Nat := 0x0003

/-- power read, r, value is power*10 or 100 -/
def REG_P_READ : Nat := 0x0004

/-- voltage in, r, value is voltage*100 -/
def REG_VIN_READ : Nat := 0x0005

/-- CVCS status, r, 0=CV, 1=CC -/
def REG_CVCS_READ : Nat := 0x0008

/-- on/off set, r/w, 0=Off 1=On -/
def REG_ONOFF_SET : Nat := 0x0009

/-- The eight register addresses, in the order the header defines them. -/
def registers : List Nat :=
  [REG_V_SET, REG_I_SET, REG_V_READ, REG_I_READ,
   REG_P_READ, REG_VIN_READ, REG_CVCS_READ, REG_ONOFF_SET]

/-- The registers the header documents as r/w. -/
def readWriteRegisters : List Nat := [REG_V_SET, REG_I_SET, REG_ONOFF_SET]

/-- The registers the header documents as r (read only). -/
def readOnlyRegisters : List Nat :=
  [REG_V_READ, REG_I_READ, REG_P_READ, REG_VIN_READ, REG_CVCS_READ]

/-- Conversion of an integer constant to a 16-bit unsigned value (uint16_t). -/
def toU16 (n : Nat) : Nat := n % 2 ^ 16

/-- The addresses covered by one ModBus read of count consecutive holding
registers starting at address start. -/
def readSpan (start count : Nat) : List Nat := List.range' start count

/-! ## The header as preprocessor input -/

/-- One line of the header.  A comment line carries the text after the two
slashes; a define line carries the macro name and its replacement, which is
absent for a bare flag. -/
inductive Line where
  | blank
  | comment (text : String)
  | define (name : String) (body : Option Nat)
  deriving DecidableEq

/-- The header DPS5015.h, line by line. -/
def DPS5015_h : List Line :=
  [ .comment " ModBus registers on DSP5015",
    .comment "-----------------------------",
    .comment " voltage set r/w, value is voltage*100",
    .define "REG_V_SET" (some 0x0000),
    .blank,
    .comment " current set r/w, value is current*100",
    .define "REG_I_SET" (some 0x0001),
    .blank,
    .comment " voltage read, r, value is voltage*100",
    .define "REG_V_READ" (some 0x0002),
    .blank,
    .comment " current read, r, value is current*100",
    .define "REG_I_READ" (some 0x0003),
    .blank,
    .comment " power read, r, value is power*10 or 100",
    .define "REG_P_READ" (some 0x0004),
    .blank,
    .comment " voltage in, r, value is voltage*100",
    .define "REG_VIN_READ" (some 0x0005),
    .blank,
    .comment " CVCS status, r, 0=CV, 1=CC",
    .define "REG_CVCS_READ" (some 0x0008),
    .blank,
    .comment " on/off set, r/w, 0=Off 1=On",
    .define "REG_ONOFF_SET" (some 0x0009),
    .blank,
    .comment " enable definition below to operate without an actual DPS5015",
    .comment " power supply connected.",
    .comment " #define NO_DPS" ]

/-- The macros in force at some point of a translation unit, most recent
definition first. -/
abbrev MacroEnv := List (String × Option Nat)

/-- The effect of one line on the macro environment: a define line binds its
name, every other line is discarded. -/
def step (env : MacroEnv) : Line → MacroEnv
  | .define name body => (name, body) :: env
  | .comment _ => env
  | .blank => env

/-- The macro environment after the header has been included where the
environment was pre (macros given on the compiler command line, or by text
above the include). -/
def preprocess (pre : MacroEnv) (hdr : List Line) : MacroEnv :=
  hdr.foldl step pre

/-- What ifdef answers for a name. -/
def isDefined (env : MacroEnv) (name : String) : Bool :=
  env.any fun d => d.1 == name

/-- The value a name expands to, when it is defined with a replacement. -/
def expand (env : MacroEnv) (name : String) : Option Nat :=
  (env.lookup name).join

/-- The names the header defines, in order. -/
def definedNames : List Line → List String
  | [] => []
  | .define name _ :: rest => name :: definedNames rest
  | .comment _ :: rest => definedNames rest
  | .blank :: rest => definedNames rest

/-- The replacement values of the macros the header defines, in order. -/
def definedValues : List Line → List Nat
  | [] => []
  | .define _ (some v) :: rest => v :: definedValues rest
  | .define _ none :: rest => definedValues rest
  | .comment _ :: rest => definedValues rest
  | .blank :: rest => definedValues rest

/-- The header with the commented-out definition of a flag enabled, as the
comment above it instructs: the comment line holding the define directive of
that flag becomes the directive. -/
def enable (flag : String) (hdr : List Line) : List Line :=
  hdr.map fun l => if l = .comment (" #define " ++ flag) then .define flag none else l

/-- An environment in which the eight register macros expand to the eight
register addresses. -/
def DefinesRegisterMap (env : MacroEnv) : Prop :=
  expand env "REG_V_SET" = some REG_V_SET ∧
  expand env "REG_I_SET" = some REG_I_SET ∧
  expand env "REG_V_READ" = some REG_V_READ ∧
  expand env "REG_I_READ" = some REG_I_READ ∧
  expand env "REG_P_READ" = some REG_P_READ ∧
  expand env "REG_VIN_READ" = some REG_VIN_READ ∧
  expand env "REG_CVCS_READ" = some REG_CVCS_READ ∧
  expand env "REG_ONOFF_SET" = some REG_ONOFF_SET

/-! ## The two layers agree -/

/-- The constants are what the header text defines, in the same order. -/
theorem definedValues_header : definedValues DPS5015_h = registers := by
  decide

/-- The header defines the eight register macros and nothing else. -/
theorem definedNames_header :
    definedNames DPS5015_h =
      ["REG_V_SET", "REG_I_SET", "REG_V_READ", "REG_I_READ",
       "REG_P_READ", "REG_VIN_READ", "REG_CVCS_READ", "REG_ONOFF_SET"] := by
  decide

/-- Including the header puts its eight definitions, latest first, in front of
whatever was defined before. -/
theorem preprocess_header (pre : MacroEnv) :
    preprocess pre DPS5015_h =
      ("REG_ONOFF_SET", some 0x0009) :: ("REG_CVCS_READ", some 0x0008) ::
      ("REG_VIN_READ", some 0x0005) :: ("REG_P_READ", some 0x0004) ::
      ("REG_I_READ", some 0x0003) :: ("REG_V_READ", some 0x0002) ::
      ("REG_I_SET", some 0x0001) :: ("REG_V_SET", some 0x0000) :: pre := by
  rfl

/-- Enabling NO_DPS turns the last line of the header into a directive and
changes no other line. -/
theorem enable_header :
    enable "NO_DPS" DPS5015_h =
      DPS5015_h.dropLast ++ [.define "NO_DPS" none] := by
  decide

/-- Including the header with NO_DPS enabled adds the flag in front of the
eight register definitions. -/
theorem preprocess_enabled (pre : MacroEnv) :
    preprocess pre (enable "NO_DPS" DPS5015_h) =
      ("NO_DPS", none) :: preprocess pre DPS5015_h := by
  rw [enable_header]
  rfl

/-- The eight register macros expand to the register addresses once the header
is included, whatever was defined before. -/
theorem definesRegisterMap_header (pre : MacroEnv) :
    DefinesRegisterMap (preprocess pre DPS5015_h) := by
  rw [preprocess_header]
  refine ⟨?_, ?_, ?_, ?_, ?_, ?_, ?_, ?_⟩ <;> rfl

/-! ## The register map -/

/-- Claim C1: the two setpoint register constants equal their documented ModBus
addresses, REG_V_SET = 0x0000 and REG_I_SET = 0x0001, as constants and as what
the header text makes the two names expand to. -/
theorem C1_setpoint_addresses :
    REG_V_SET = 0x0000 ∧ REG_I_SET = 0x0001 ∧
    expand (preprocess [] DPS5015_h) "REG_V_SET" = some 0x0000 ∧
    expand (preprocess [] DPS5015_h) "REG_I_SET" = some 0x0001 := by
  decide

/-- Claim C2: the output readback register constants equal their documented
ModBus addresses, REG_V_READ = 0x0002 and REG_I_READ = 0x0003, as constants and
as what the header text makes the two names expand to. -/
theorem C2_readback_addresses :
    REG_V_READ = 0x0002 ∧ REG_I_READ = 0x0003 ∧
    expand (preprocess [] DPS5015_h) "REG_V_READ" = some 0x0002 ∧
    expand (preprocess [] DPS5015_h) "REG_I_READ" = some 0x0003 := by
  decide

/-- Claim C3: the status and control register constants equal their documented
ModBus addresses, REG_CVCS_READ = 0x0008 and REG_ONOFF_SET = 0x0009, as
constants and as what the header text makes the two names expand to. -/
theorem C3_status_control_addresses :
    REG_CVCS_READ = 0x0008 ∧ REG_ONOFF_SET = 0x0009 ∧
    expand (preprocess [] DPS5015_h) "REG_CVCS_READ" = some 0x0008 ∧
    expand (preprocess [] DPS5015_h) "REG_ONOFF_SET" = some 0x0009 := by
  decide

/-- Claim C4: the power and input-voltage readback register constants equal
their documented ModBus addresses, REG_P_READ = 0x0004 and REG_VIN_READ =
0x0005, as constants and as what the header text makes the two names expand
to. -/
theorem C4_power_vin_addresses :
    REG_P_READ = 0x0004 ∧ REG_VIN_READ = 0x0005 ∧
    expand (preprocess [] DPS5015_h) "REG_P_READ" = some 0x0004 ∧
    expand (preprocess [] DPS5015_h) "REG_VIN_READ" = some 0x0005 := by
  decide

/-- Claim C5: every one of the eight register address constants lies in the
range 0 .. 65535 of an unsigned 16-bit ModBus holding-register offset, and
converting it to a 16-bit unsigned value gives the constant back. -/
theorem C5_addresses_fit_u16 :
    (REG_V_SET ≤ 0xFFFF ∧ toU16 REG_V_SET = REG_V_SET) ∧
    (REG_I_SET ≤ 0xFFFF ∧ toU16 REG_I_SET = REG_I_SET) ∧
    (REG_V_READ ≤ 0xFFFF ∧ toU16 REG_V_READ = REG_V_READ) ∧
    (REG_I_READ ≤ 0xFFFF ∧ toU16 REG_I_READ = REG_I_READ) ∧
    (REG_P_READ ≤ 0xFFFF ∧ toU16 REG_P_READ = REG_P_READ) ∧
    (REG_VIN_READ ≤ 0xFFFF ∧ toU16 REG_VIN_READ = REG_VIN_READ) ∧
    (REG_CVCS_READ ≤ 0xFFFF ∧ toU16 REG_CVCS_READ = REG_CVCS_READ) ∧
    (REG_ONOFF_SET ≤ 0xFFFF ∧ toU16 REG_ONOFF_SET = REG_ONOFF_SET) ∧
    registers.all (fun r => decide (r ≤ 65535) && toU16 r == r) = true := by
  decide

/-- Claim C6: in the header as shipped NO_DPS is not defined, its definition
being a comment line, and the eight register constants are defined with their
addresses regardless of the flag: whatever was defined before the header is
included, and also once the commented-out definition is enabled, which
defines the flag and changes none of the eight. -/
theorem C6_no_dps_off_by_default :
    DPS5015_h.getLast? = some (.comment " #define NO_DPS") ∧
    "NO_DPS" ∉ definedNames DPS5015_h ∧
    isDefined (preprocess [] DPS5015_h) "NO_DPS" = false ∧
    (∀ pre : MacroEnv, DefinesRegisterMap (preprocess pre DPS5015_h)) ∧
    isDefined (preprocess [] (enable "NO_DPS" DPS5015_h)) "NO_DPS" = true ∧
    (∀ pre : MacroEnv,
      DefinesRegisterMap (preprocess pre (enable "NO_DPS" DPS5015_h))) := by
  refine ⟨by decide, by decide, by decide, definesRegisterMap_header, by decide, ?_⟩
  intro pre
  rw [preprocess_enabled]
  have h := definesRegisterMap_header pre
  exact h

/-- Claim C8: the eight register address constants are pairwise distinct, and
in particular no read/write register (REG_V_SET, REG_I_SET, REG_ONOFF_SET)
shares its address with a read-only register. -/
theorem C8_addresses_pairwise_distinct :
    registers.length = 8 ∧
    List.Pairwise (fun a b => a ≠ b) registers ∧
    registers.Nodup ∧
    (readWriteRegisters.all fun w => readOnlyRegisters.all fun r => w != r) = true ∧
    readWriteRegisters.all (fun w => !readOnlyRegisters.contains w) = true := by
  decide

/-- Claim C9: the register constants are strictly increasing in declaration
order; the six setpoint and measurement registers are the contiguous block
REG_V_SET .. REG_V_SET + 5, so a read of 6 registers from REG_V_SET covers
exactly these six; a read of 10 registers from REG_V_SET covers all eight
named registers, and addresses 6 and 7 are the only unnamed ones in that
span. -/
theorem C9_increasing_contiguous_block :
    definedValues DPS5015_h = registers ∧
    List.Pairwise (fun a b => a < b) registers ∧
    REG_I_SET = REG_V_SET + 1 ∧
    REG_V_READ = REG_V_SET + 2 ∧
    REG_I_READ = REG_V_SET + 3 ∧
    REG_P_READ = REG_V_SET + 4 ∧
    REG_VIN_READ = REG_V_SET + 5 ∧
    readSpan REG_V_SET 6 =
      [REG_V_SET, REG_I_SET, REG_V_READ, REG_I_READ, REG_P_READ, REG_VIN_READ] ∧
    readSpan REG_V_SET 10 = [0, 1, 2, 3, 4, 5, 6, 7, 8, 9] ∧
    registers.all (fun r => (readSpan REG_V_SET 10).contains r) = true ∧
    (readSpan REG_V_SET 10).filter (fun a => !registers.contains a) = [6, 7] := by
  decide

end DPS5015
